import Mathlib

/-!
Shallow embedding of the `utils` package (files `utils/raster.py` and
`utils/treemap.py`) of the sprint_2_b repository.

Modelling conventions:
* Python floats are modelled as rationals (`ℚ`); every arithmetic step in the
  source is a finite sequence of exact multiplications/divisions, so `ℚ`
  represents them faithfully.
* A geopandas `GeoDataFrame` ROI is modelled by its CRS together with the
  function giving its `total_bounds` in any CRS (`to_crs` followed by
  `total_bounds`).  The geometry engine itself is an external collaborator.
* The rioxarray raster object is kept abstract: `extract_window` is embedded
  as a symbolic trace (`RasterExpr`) of the `clip_box` / `reproject`
  primitives it invokes, together with a bounding-box semantics `evalBounds`
  for those primitives in which `clip_box` intersects bounding boxes and
  fails on an empty result, as the underlying library does.
* Python exceptions are modelled by an error type recording the Python
  exception class and its message string, returned through `Except`.
* The dask/pandas tree table is modelled as a list of rows carrying the
  columns the code touches; the materialized (single-partition) dataframe
  semantics is used: the index created by `read_csv`/`read_parquet` is the
  row position `0, 1, 2, …`, boolean-mask filtering preserves index labels,
  and `reset_index()` moves the old index labels into a column named
  `index`.  `ACTUALHT` is the one column whose nullness the code inspects,
  so it is the one modelled as `Option ℚ`.
-/

/-- A coordinate reference system identifier (e.g. an EPSG string); the code
only ever compares CRSs for equality. -/
abbrev Crs := String

/-- An axis-aligned bounding box `(min-x, min-y, max-x, max-y)`, the shape
returned by `total_bounds` and `rio.bounds()`. -/
structure BBox where
  minx : ℚ
  miny : ℚ
  maxx : ℚ
  maxy : ℚ
deriving DecidableEq, Repr

namespace BBox

/-- Pad a bounding box by `d` on all four sides: subtract from min-x/min-y,
add to max-x/max-y, exactly as both padding steps of
`_extract_window_rioxarray` do. -/
def pad (b : BBox) (d : ℚ) : BBox :=
  ⟨b.minx - d, b.miny - d, b.maxx + d, b.maxy + d⟩

/-- `a.inside b` holds when box `a` lies within box `b` on all four sides,
with inclusive comparisons. -/
def inside (a b : BBox) : Prop :=
  b.minx ≤ a.minx ∧ b.miny ≤ a.miny ∧ a.maxx ≤ b.maxx ∧ a.maxy ≤ b.maxy

instance (a b : BBox) : Decidable (a.inside b) := by
  unfold inside; infer_instance

/-- Intersection of two bounding boxes. -/
def inter (a b : BBox) : BBox :=
  ⟨max a.minx b.minx, max a.miny b.miny, min a.maxx b.maxx, min a.maxy b.maxy⟩

/-- A box is nonempty when min ≤ max on both axes. -/
def nonempty (b : BBox) : Prop :=
  b.minx ≤ b.maxx ∧ b.miny ≤ b.maxy

instance (b : BBox) : Decidable b.nonempty := by
  unfold nonempty; infer_instance

theorem inside_refl (a : BBox) : a.inside a :=
  ⟨le_refl _, le_refl _, le_refl _, le_refl _⟩

theorem inside_trans {a b c : BBox} (h₁ : a.inside b) (h₂ : b.inside c) :
    a.inside c :=
  ⟨le_trans h₂.1 h₁.1, le_trans h₂.2.1 h₁.2.1,
   le_trans h₁.2.2.1 h₂.2.2.1, le_trans h₁.2.2.2 h₂.2.2.2⟩

theorem pad_mono {b : BBox} {d d' : ℚ} (h : d ≤ d') :
    (b.pad d).inside (b.pad d') :=
  ⟨by simp [pad]; linarith, by simp [pad]; linarith,
   by simp [pad]; linarith, by simp [pad]; linarith⟩

theorem inter_mono {a a' b b' : BBox} (ha : a.inside a') (hb : b.inside b') :
    (a.inter b).inside (a'.inter b') := by
  obtain ⟨ha1, ha2, ha3, ha4⟩ := ha
  obtain ⟨hb1, hb2, hb3, hb4⟩ := hb
  exact ⟨max_le_max ha1 hb1, max_le_max ha2 hb2,
         min_le_min ha3 hb3, min_le_min ha4 hb4⟩

theorem nonempty_mono {a b : BBox} (h : a.inside b) (ha : a.nonempty) :
    b.nonempty :=
  ⟨le_trans h.1 (le_trans ha.1 h.2.2.1), le_trans h.2.1 (le_trans ha.2 h.2.2.2)⟩

end BBox

/-- A region of interest: a geometry with a CRS.  `boundsIn c` is the
bounding box of the geometry after reprojection into CRS `c` (the composite
`to_crs` / `total_bounds` provided by the external geometry library);
`boundsIn crs` is the geometry's native `total_bounds`. -/
structure ROI where
  crs : Crs
  boundsIn : Crs → BBox

namespace ROI

/-- `roi.to_crs c`: reproject the ROI into CRS `c` (geopandas `to_crs`). -/
def to_crs (r : ROI) (c : Crs) : ROI :=
  ⟨c, r.boundsIn⟩

/-- `roi.total_bounds`: the bounding box of the ROI in its current CRS. -/
def total_bounds (r : ROI) : BBox :=
  r.boundsIn r.crs

end ROI

/-- A Python exception, recorded as the exception class used by the source
together with its message. -/
inductive PyError where
  | valueError (msg : String)
  | notImplementedError (msg : String)
  | fileNotFoundError (msg : String)
deriving DecidableEq, Repr

/-- The metadata rioxarray exposes on an opened raster: CRS, the first
component of `rio.resolution()`, `rio.bounds()` and the dtype.  The pixel
grid itself stays abstract (see `RasterExpr`). -/
structure RasterData where
  crs : Crs
  resolution0 : ℚ
  bounds : BBox
  dtype : String
deriving DecidableEq, Repr

/-- `RasterConnection.allowed_connection_types`. -/
def allowed_connection_types : List String := ["rioxarray"]

/-- The state of a constructed `RasterConnection`: the connection type tag and
the metadata cached from the opened raster in `__init__`. -/
structure RasterConnection where
  connection_type : String
  raster : RasterData
  raster_crs : Crs
  raster_resolution : ℚ
  raster_bounds : BBox
  raster_dtype : String
deriving DecidableEq, Repr

/-- `RasterConnection.__init__`: reject a `connection_type` outside
`allowed_connection_types` with
`ValueError(f"Connection type {connection_type} not supported.")`; otherwise
(the allowed set is exactly `["rioxarray"]`, so the rioxarray branch is
taken) open the raster and cache `raster_crs`, `raster_resolution`
(absolute value of the first resolution component), `raster_bounds` and
`raster_dtype`.  The already-opened raster metadata is a parameter: the
storage backend is an external collaborator. -/
def mkRasterConnection (raster : RasterData) (connection_type : String) :
    Except PyError RasterConnection :=
  if connection_type ∉ allowed_connection_types then
    .error (.valueError ("Connection type " ++ connection_type ++ " not supported."))
  else
    .ok { connection_type := connection_type
          raster := raster
          raster_crs := raster.crs
          raster_resolution := |raster.resolution0|
          raster_bounds := raster.bounds
          raster_dtype := raster.dtype }

/-- `RasterConnection.roi_within_raster_bounds`: reproject the ROI to the
raster CRS, take its `total_bounds`, and compare all four sides against
`raster_bounds` inclusively. -/
def roi_within_raster_bounds (c : RasterConnection) (roi : ROI) : Bool :=
  let roi_reprojected := roi.to_crs c.raster_crs
  let roi_bounds := roi_reprojected.total_bounds
  decide (roi_bounds.minx ≥ c.raster_bounds.minx) &&
  decide (roi_bounds.miny ≥ c.raster_bounds.miny) &&
  decide (roi_bounds.maxx ≤ c.raster_bounds.maxx) &&
  decide (roi_bounds.maxy ≤ c.raster_bounds.maxy)

/-- C2: `roi_within_raster_bounds` reprojects the ROI into the raster's CRS,
takes its bounding box, and returns `true` iff that box lies inside the
raster's bounding box on all four sides with inclusive comparisons; so any
ROI whose (reprojected) bounding box is fully inside yields `true` and any
ROI with a bounding-box corner outside yields `false`. -/
theorem roi_within_raster_bounds_iff_inside (c : RasterConnection) (roi : ROI) :
    roi_within_raster_bounds c roi = true ↔
      (roi.boundsIn c.raster_crs).inside c.raster_bounds := by
  simp only [roi_within_raster_bounds, ROI.to_crs, ROI.total_bounds,
    Bool.and_eq_true, decide_eq_true_eq, BBox.inside]
  tauto

/-- A symbolic trace of the rioxarray primitives `_extract_window_rioxarray`
invokes on the opened raster: the opened raster itself, `rio.clip_box` with a
bounding box, and `rio.reproject` to a CRS. -/
inductive RasterExpr where
  | opened : RasterExpr
  | clip_box (w : RasterExpr) (b : BBox) : RasterExpr
  | reproject (w : RasterExpr) (c : Crs) : RasterExpr
deriving DecidableEq, Repr

/-- Whether a trace contains any `reproject` call. -/
def RasterExpr.usesReproject : RasterExpr → Bool
  | .opened => false
  | .clip_box w _ => w.usesReproject
  | .reproject _ _ => true

/-- `RasterConnection._extract_window_rioxarray`, as the trace of raster
operations it performs.  Step 1: ROI bounds in the raster CRS, reprojecting
only when the CRSs differ.  Step 2: pad by `projection_padding_meters` and
clip.  Step 3: reproject the window to the ROI CRS only when the CRSs
differ.  Step 4: pad the ROI's native `total_bounds` by
`interpolation_padding_cells * raster_resolution`.  Step 5: clip to the
second box and return. -/
def _extract_window_rioxarray (c : RasterConnection) (roi : ROI)
    (projection_padding_meters : ℚ) (interpolation_padding_cells : ℤ) :
    RasterExpr :=
  let roi_bounds :=
    if roi.crs ≠ c.raster_crs then (roi.to_crs c.raster_crs).total_bounds
    else roi.total_bounds
  let roi_padded_bounds := roi_bounds.pad projection_padding_meters
  let window := RasterExpr.clip_box .opened roi_padded_bounds
  let window_reprojected :=
    if roi.crs ≠ c.raster_crs then RasterExpr.reproject window roi.crs
    else window
  let roi_padded :=
    roi.total_bounds.pad ((interpolation_padding_cells : ℚ) * c.raster_resolution)
  RasterExpr.clip_box window_reprojected roi_padded

/-- `RasterConnection.extract_window`: dispatch on `connection_type`; the
Python function has no `else` branch, so the fall-through returns `None`,
modelled as `none`. -/
def extract_window (c : RasterConnection) (roi : ROI)
    (projection_padding_meters : ℚ) (interpolation_padding_cells : ℤ) :
    Option RasterExpr :=
  if c.connection_type = "rioxarray" then
    some (_extract_window_rioxarray c roi
      projection_padding_meters interpolation_padding_cells)
  else
    none

/-- The box argument of the trace's outermost (final) `clip_box`. -/
def finalClipBox : RasterExpr → Option BBox
  | .clip_box _ b => some b
  | _ => none

/-- The window the trace's outermost (final) `clip_box` is applied to. -/
def finalClipWindow : RasterExpr → Option RasterExpr
  | .clip_box w _ => some w
  | _ => none

/-- Bounding-box semantics of a trace: `clip_box` intersects the current
bounds with the given box and fails (as rioxarray raises) when the
intersection is empty; `reproject` maps the bounds through the external
geometry engine's bounds transform `reproj` (target CRS, box). -/
def evalBounds (base : BBox) (reproj : Crs → BBox → BBox) : RasterExpr → Option BBox
  | .opened => some base
  | .clip_box w b =>
    (evalBounds base reproj w).bind fun wb =>
      let i := wb.inter b
      if i.nonempty then some i else none
  | .reproject w c => (evalBounds base reproj w).map (reproj c)

/-- The bounding box of the window `_extract_window_rioxarray` returns, under
the bounds semantics. -/
def windowBounds (c : RasterConnection) (reproj : Crs → BBox → BBox) (roi : ROI)
    (projection_padding_meters : ℚ) (interpolation_padding_cells : ℤ) :
    Option BBox :=
  evalBounds c.raster_bounds reproj
    (_extract_window_rioxarray c roi projection_padding_meters interpolation_padding_cells)

/-- The external geometry engine's bounds transform is monotone: reprojecting
a larger box yields a larger box. -/
def ReprojMono (reproj : Crs → BBox → BBox) : Prop :=
  ∀ c a b, a.inside b → (reproj c a).inside (reproj c b)

/-- C3: in `_extract_window_rioxarray` the final clip box is computed from
the ROI's `total_bounds` in the ROI's own native CRS, padded on all four
sides by exactly `interpolation_padding_cells * raster_resolution` — and the
window the final clip is applied to is the possibly-reprojected window from
steps 1–3 (its box derived from the ROI bounds in the raster CRS, padded by
the projection padding), not a recomputation from the reprojected window's
box. -/
theorem final_clip_box_is_native_roi_bounds (c : RasterConnection) (roi : ROI)
    (p : ℚ) (i : ℤ) :
    finalClipBox (_extract_window_rioxarray c roi p i) =
      some ((roi.boundsIn roi.crs).pad ((i : ℚ) * c.raster_resolution)) ∧
    finalClipWindow (_extract_window_rioxarray c roi p i) =
      some (if roi.crs ≠ c.raster_crs then
              RasterExpr.reproject
                (.clip_box .opened ((roi.boundsIn c.raster_crs).pad p)) roi.crs
            else
              .clip_box .opened ((roi.boundsIn roi.crs).pad p)) := by
  unfold _extract_window_rioxarray finalClipBox finalClipWindow
  refine ⟨rfl, ?_⟩
  by_cases h : roi.crs ≠ c.raster_crs
  · simp [h, ROI.to_crs, ROI.total_bounds]
  · simp [h, ROI.total_bounds]

/-- `w ≼ w'` under the bounds semantics: whenever `w` evaluates to a window,
`w'` evaluates to a window at least as large on every side. -/
def evalLe (base : BBox) (reproj : Crs → BBox → BBox) (w w' : RasterExpr) : Prop :=
  ∀ b, evalBounds base reproj w = some b →
    ∃ b', evalBounds base reproj w' = some b' ∧ b.inside b'

theorem evalLe_opened (base : BBox) (reproj : Crs → BBox → BBox) :
    evalLe base reproj .opened .opened := by
  intro b hb
  exact ⟨b, hb, BBox.inside_refl b⟩

theorem evalLe_clip_box {base : BBox} {reproj : Crs → BBox → BBox}
    {w w' : RasterExpr} {bx bx' : BBox}
    (h : evalLe base reproj w w') (hbx : bx.inside bx') :
    evalLe base reproj (.clip_box w bx) (.clip_box w' bx') := by
  intro b hb
  simp only [evalBounds] at hb
  cases hw : evalBounds base reproj w with
  | none => rw [hw] at hb; simp at hb
  | some wb =>
    rw [hw] at hb
    simp only [Option.some_bind] at hb
    split at hb
    · next hne =>
      cases hb
      obtain ⟨wb', hw', hins⟩ := h wb hw
      have hins' : (wb.inter bx).inside (wb'.inter bx') :=
        BBox.inter_mono hins hbx
      refine ⟨wb'.inter bx', ?_, hins'⟩
      simp only [evalBounds, hw', Option.some_bind]
      rw [if_pos (BBox.nonempty_mono hins' hne)]
    · simp at hb

theorem evalLe_reproject {base : BBox} {reproj : Crs → BBox → BBox}
    {w w' : RasterExpr} {c : Crs}
    (hrp : ReprojMono reproj) (h : evalLe base reproj w w') :
    evalLe base reproj (.reproject w c) (.reproject w' c) := by
  intro b hb
  simp only [evalBounds] at hb
  cases hw : evalBounds base reproj w with
  | none => rw [hw] at hb; simp at hb
  | some wb =>
    rw [hw] at hb
    simp only [Option.map_some'] at hb
    cases hb
    obtain ⟨wb', hw', hins⟩ := h wb hw
    exact ⟨reproj c wb', by simp [evalBounds, hw'], hrp c wb wb' hins⟩

/-- C7: padding monotonicity.  For a connection built by
`RasterConnection.__init__` (so its resolution is an absolute value, hence
non-negative), a monotone geometry-engine bounds transform, and a fixed ROI,
increasing `projection_padding_meters` or `interpolation_padding_cells`
never shrinks the returned window's bounding box on any of the four
sides. -/
theorem extract_window_padding_mono
    (rd : RasterData) (ct : String) (c : RasterConnection)
    (reproj : Crs → BBox → BBox) (roi : ROI) (p p' : ℚ) (i i' : ℤ) (b : BBox)
    (hmk : mkRasterConnection rd ct = .ok c)
    (hrp : ReprojMono reproj) (hp : p ≤ p') (hi : i ≤ i')
    (hb : windowBounds c reproj roi p i = some b) :
    ∃ b', windowBounds c reproj roi p' i' = some b' ∧ b.inside b' := by
  have hres : 0 ≤ c.raster_resolution := by
    unfold mkRasterConnection at hmk
    split at hmk
    · simp at hmk
    · cases hmk
      exact abs_nonneg _
  have hd : (i : ℚ) * c.raster_resolution ≤ (i' : ℚ) * c.raster_resolution :=
    mul_le_mul_of_nonneg_right (by exact_mod_cast hi) hres
  unfold windowBounds _extract_window_rioxarray at hb ⊢
  by_cases h : roi.crs ≠ c.raster_crs
  · simp only [if_pos h] at hb ⊢
    exact evalLe_clip_box
      (evalLe_reproject hrp
        (evalLe_clip_box (evalLe_opened _ _) (BBox.pad_mono hp)))
      (BBox.pad_mono hd) b hb
  · simp only [if_neg h] at hb ⊢
    exact evalLe_clip_box
      (evalLe_clip_box (evalLe_opened _ _) (BBox.pad_mono hp))
      (BBox.pad_mono hd) b hb

/-- Concrete sample raster metadata used by the closed witness statements. -/
def sampleRasterData : RasterData :=
  { crs := "EPSG:5070", resolution0 := 30
    bounds := ⟨0, 0, 100, 100⟩, dtype := "float32" }

/-- The connection `RasterConnection.__init__` builds from
`sampleRasterData` with the default `"rioxarray"` connection type. -/
def sampleConn : RasterConnection :=
  { connection_type := "rioxarray", raster := sampleRasterData
    raster_crs := "EPSG:5070", raster_resolution := 30
    raster_bounds := ⟨0, 0, 100, 100⟩, raster_dtype := "float32" }

/-- A concrete ROI in the same CRS as `sampleRasterData`, with bounding box
`(10, 10, 20, 20)` in every CRS. -/
def sampleROI : ROI :=
  ⟨"EPSG:5070", fun _ => ⟨10, 10, 20, 20⟩⟩

theorem mkRasterConnection_sample :
    mkRasterConnection sampleRasterData "rioxarray" = .ok sampleConn := by
  simp [mkRasterConnection, allowed_connection_types, sampleRasterData, sampleConn]

/-- Witness for C7 at concrete inputs: paddings grow from `(1, 0)` to
`(2, 1)` and the returned window's bounding box does not shrink. -/
theorem extract_window_padding_mono_witness :
    ∃ b', windowBounds sampleConn (fun _ b => b) sampleROI 2 1 = some b' ∧
      BBox.inside ⟨10, 10, 20, 20⟩ b' := by
  have hb : windowBounds sampleConn (fun _ b => b) sampleROI 1 0 =
      some ⟨10, 10, 20, 20⟩ := by
    simp [windowBounds, _extract_window_rioxarray, sampleConn, sampleROI,
      ROI.total_bounds, ROI.to_crs, evalBounds, BBox.pad, BBox.inter,
      BBox.nonempty, max_def, min_def]
    norm_num
  exact extract_window_padding_mono sampleRasterData "rioxarray" sampleConn
    (fun _ b => b) sampleROI 1 2 0 1 ⟨10, 10, 20, 20⟩
    mkRasterConnection_sample (fun _ _ _ h => h)
    (by norm_num) (by norm_num) hb

/-- The simplified CRS-match computation, written from the spec's words: take
the ROI's own bounding box directly, clip the raster to the
projection-padded box, and clip that window — with no reprojection — to the
interpolation-padded box. -/
def extract_window_crs_match_spec (c : RasterConnection) (roi : ROI)
    (projection_padding_meters : ℚ) (interpolation_padding_cells : ℤ) :
    RasterExpr :=
  .clip_box
    (.clip_box .opened (roi.total_bounds.pad projection_padding_meters))
    (roi.total_bounds.pad ((interpolation_padding_cells : ℚ) * c.raster_resolution))

/-- C8: when the ROI's CRS equals the raster's CRS, `extract_window`
performs no reprojection at step 1 or step 3: its trace contains no
`reproject` call and equals the simplified computation that takes the ROI's
own bounding box directly, clips to the projection-padded box, and clips the
unreprojected window to the interpolation-padded box. -/
theorem extract_window_crs_match_shortcut (c : RasterConnection) (roi : ROI)
    (p : ℚ) (i : ℤ) (h : roi.crs = c.raster_crs) :
    _extract_window_rioxarray c roi p i = extract_window_crs_match_spec c roi p i ∧
    (_extract_window_rioxarray c roi p i).usesReproject = false := by
  unfold _extract_window_rioxarray extract_window_crs_match_spec
  simp [h, RasterExpr.usesReproject]

/-- Witness for C8 at a concrete connection and ROI with matching CRSs. -/
theorem extract_window_crs_match_shortcut_witness :
    _extract_window_rioxarray sampleConn sampleROI 1 2 =
      extract_window_crs_match_spec sampleConn sampleROI 1 2 ∧
    (_extract_window_rioxarray sampleConn sampleROI 1 2).usesReproject = false :=
  extract_window_crs_match_shortcut sampleConn sampleROI 1 2 rfl

/-- C10: every successfully constructed connection has its
`connection_type` in the allowed set — which contains exactly
`"rioxarray"` — and therefore `extract_window` always dispatches to the
rioxarray implementation and never falls through to the implicit `None`
return. -/
theorem extract_window_dispatch_total
    (rd : RasterData) (ct : String) (c : RasterConnection)
    (hmk : mkRasterConnection rd ct = .ok c) :
    c.connection_type ∈ allowed_connection_types ∧
    c.connection_type = "rioxarray" ∧
    ∀ roi p i, extract_window c roi p i =
      some (_extract_window_rioxarray c roi p i) := by
  unfold mkRasterConnection at hmk
  split at hmk
  · simp at hmk
  · next hmem =>
    have hct : ct = "rioxarray" := by
      simp [allowed_connection_types] at hmem
      exact hmem
    cases hmk
    refine ⟨?_, hct, ?_⟩
    · simp [allowed_connection_types, hct]
    · intro roi p i
      simp [extract_window, hct]

/-- Witness for C10 at the concrete sample connection. -/
theorem extract_window_dispatch_total_witness :
    sampleConn.connection_type ∈ allowed_connection_types ∧
    sampleConn.connection_type = "rioxarray" ∧
    ∀ roi p i, extract_window sampleConn roi p i =
      some (_extract_window_rioxarray sampleConn roi p i) :=
  extract_window_dispatch_total sampleRasterData "rioxarray" sampleConn
    mkRasterConnection_sample

/-- Python's `str.endswith`: suffix test on the string's characters. -/
def pyEndsWith (s suffix : String) : Bool :=
  suffix.data.isSuffixOf s.data

/-- A row of the tree table as loaded by `dd.read_csv` / `dd.read_parquet`,
carrying the columns the code touches.  `link` is the plot-linkage column
(named `tl_id` or `tm_id` in the file, selected by `_tl_key`).  `ACTUALHT`
is the one column whose nullness the code inspects
(`trees["ACTUALHT"].notnull()`), so it is the one modelled as optional. -/
structure RawTreeRow where
  link : ℤ
  SPCD : ℤ
  STATUSCD : ℤ
  DIA : ℚ
  HT : ℚ
  ACTUALHT : Option ℚ
  CR : ℚ
  TPA_UNADJ : ℚ
deriving DecidableEq, Repr

/-- The materialized tree table: its dataframe index is the row position. -/
abbrev TreeTable := List RawTreeRow

/-- The state of a constructed `TreeMapConnection`: the version, the
version-selected plot-linkage column name `_tl_key`, the inherited
`RasterConnection` state, the table path and the loaded tree table. -/
structure TreeMapConnection where
  version : String
  tl_key : String
  raster_path : String
  base : RasterConnection
  table_path : String
  tree_table : TreeTable
deriving DecidableEq, Repr

/-- `TreeMapConnection.__init__`: reject a version outside
`["2014", "2016"]` with `ValueError(f"Invalid version: {version}")`; select
`_tl_key` (`"tl_id"` for 2014, `"tm_id"` otherwise); build the parent
`RasterConnection` with connection type `"rioxarray"`; then load the tree
table: a `.csv` path via `dd.read_csv`, a `.parquet` path via
`dd.read_parquet`, any other extension raises
`NotImplementedError(f"Unsupported file format for tree table: {path}")`,
and a `FileNotFoundError` from either reader is re-raised as
`FileNotFoundError(f"Invalid tree table path: {path}")`.  The filesystem is
the external collaborator `fs`: `fs path = none` models the reader raising
`FileNotFoundError`, `fs path = some t` models a successful read. -/
def mkTreeMapConnection (raster : RasterData)
    (treemap_path tree_table_path version : String)
    (fs : String → Option TreeTable) : Except PyError TreeMapConnection :=
  if version ∉ (["2014", "2016"] : List String) then
    .error (.valueError ("Invalid version: " ++ version))
  else
    let tl_key := if version = "2014" then "tl_id" else "tm_id"
    match mkRasterConnection raster "rioxarray" with
    | .error e => .error e
    | .ok base =>
      if pyEndsWith tree_table_path ".csv" then
        match fs tree_table_path with
        | some t =>
          .ok { version := version, tl_key := tl_key, raster_path := treemap_path
                base := base, table_path := tree_table_path, tree_table := t }
        | none =>
          .error (.fileNotFoundError ("Invalid tree table path: " ++ tree_table_path))
      else if pyEndsWith tree_table_path ".parquet" then
        match fs tree_table_path with
        | some t =>
          .ok { version := version, tl_key := tl_key, raster_path := treemap_path
                base := base, table_path := tree_table_path, tree_table := t }
        | none =>
          .error (.fileNotFoundError ("Invalid tree table path: " ++ tree_table_path))
      else
        .error (.notImplementedError
          ("Unsupported file format for tree table: " ++ tree_table_path))

/-- A row after `reset_index().rename(columns={"index": "TREE_ID"})` and the
column projection: `TREE_ID` holds the row's original dataframe index label
and `ACTUALHT` is still present. -/
structure ProjectedTreeRow where
  TREE_ID : ℕ
  link : ℤ
  SPCD : ℤ
  STATUSCD : ℤ
  DIA : ℚ
  HT : ℚ
  ACTUALHT : Option ℚ
  CR : ℚ
  TPA_UNADJ : ℚ
deriving DecidableEq, Repr

/-- A materialized row after the `HT` coalesce, the `ACTUALHT` drop and the
rename of the linkage column to `PLOT_ID` (still in imperial units). -/
structure TreeRow where
  TREE_ID : ℕ
  PLOT_ID : ℤ
  SPCD : ℤ
  STATUSCD : ℤ
  DIA : ℚ
  HT : ℚ
  CR : ℚ
  TPA_UNADJ : ℚ
deriving DecidableEq, Repr

/-- A row of the canonical FastFuels output schema (metric units, `TPA`). -/
structure FastFuelsTreeRow where
  TREE_ID : ℕ
  PLOT_ID : ℤ
  SPCD : ℤ
  STATUSCD : ℤ
  DIA : ℚ
  HT : ℚ
  CR : ℚ
  TPA : ℚ
deriving DecidableEq, Repr

/-- The semi-join of `query_trees_by_plots`: pair every tree-table row with
its dataframe index label (the list models the indexed dataframe) and keep
the rows whose plot-linkage value is in
`plots["PLOT_ID"].unique().tolist()`; boolean-mask filtering preserves the
index labels. -/
def filtered_trees (conn : TreeMapConnection) (plots : List ℤ) :
    List (ℕ × RawTreeRow) :=
  let plot_ids := plots.dedup
  conn.tree_table.enum.filter (fun ir => ir.2.link ∈ plot_ids)

/-- `query_trees_by_plots` up to (and including) `.compute()` and the rename
to `PLOT_ID`, i.e. the materialized `trees` dataframe before
`convert_treemap_data_to_fastfuels`: `reset_index()` turns the preserved
index labels into the `TREE_ID` column, the fixed column set is projected,
`HT` is coalesced per row with `ACTUALHT` (`where` keeps `ACTUALHT` when it
is non-null, else falls back to `HT`), and `ACTUALHT` is dropped. -/
def query_trees_pre (conn : TreeMapConnection) (plots : List ℤ) :
    List TreeRow :=
  let projected : List ProjectedTreeRow :=
    (filtered_trees conn plots).map fun ir =>
      { TREE_ID := ir.1, link := ir.2.link, SPCD := ir.2.SPCD
        STATUSCD := ir.2.STATUSCD, DIA := ir.2.DIA, HT := ir.2.HT
        ACTUALHT := ir.2.ACTUALHT, CR := ir.2.CR, TPA_UNADJ := ir.2.TPA_UNADJ }
  projected.map fun r =>
    { TREE_ID := r.TREE_ID, PLOT_ID := r.link, SPCD := r.SPCD
      STATUSCD := r.STATUSCD, DIA := r.DIA
      HT := match r.ACTUALHT with
            | some a => a
            | none => r.HT
      CR := r.CR, TPA_UNADJ := r.TPA_UNADJ }

/-- The per-row unit conversion of `convert_treemap_data_to_fastfuels`:
`CR / 100`, `HT * 0.3048`, `DIA * 2.54`, `TPA_UNADJ * 2.47105 / 10000`,
with the trees-per-area column renamed to `TPA`. -/
def convertRow (r : TreeRow) : FastFuelsTreeRow :=
  { TREE_ID := r.TREE_ID, PLOT_ID := r.PLOT_ID, SPCD := r.SPCD
    STATUSCD := r.STATUSCD
    CR := r.CR / 100
    HT := r.HT * 0.3048
    DIA := r.DIA * 2.54
    TPA := r.TPA_UNADJ * 2.47105 / 10000 }

/-- `convert_treemap_data_to_fastfuels`: copy the data and rescale each
column independently per row. -/
def convert_treemap_data_to_fastfuels (data : List TreeRow) :
    List FastFuelsTreeRow :=
  data.map convertRow

/-- `TreeMapConnection.query_trees_by_plots`: the semi-join, re-indexing,
projection, coalesce, rename and materialization followed by
`convert_treemap_data_to_fastfuels`. -/
def query_trees_by_plots (conn : TreeMapConnection) (plots : List ℤ) :
    List FastFuelsTreeRow :=
  convert_treemap_data_to_fastfuels (query_trees_pre conn plots)

/-- A concrete three-row tree table; rows 0 and 2 link to plot 1, row 1 to
plot 2. -/
def sampleTreeTable : TreeTable :=
  [{ link := 1, SPCD := 10, STATUSCD := 1, DIA := 10, HT := 20,
     ACTUALHT := none, CR := 50, TPA_UNADJ := 100 },
   { link := 2, SPCD := 11, STATUSCD := 1, DIA := 11, HT := 21,
     ACTUALHT := some 18, CR := 55, TPA_UNADJ := 101 },
   { link := 1, SPCD := 12, STATUSCD := 2, DIA := 12, HT := 22,
     ACTUALHT := some 12, CR := 60, TPA_UNADJ := 102 }]

/-- A concrete tree-sample connection over `sampleTreeTable`. -/
def sampleTreeConn : TreeMapConnection :=
  { version := "2016", tl_key := "tm_id", raster_path := "treemap2016.tif"
    base := sampleConn, table_path := "trees.parquet"
    tree_table := sampleTreeTable }

/-- C9: `query_trees_by_plots` depends on the `plots` input only through the
set of distinct `PLOT_ID` values it contains: two inputs with the same
membership yield identical results. -/
theorem query_trees_by_plots_depends_only_on_plot_id_set
    (conn : TreeMapConnection) (p1 p2 : List ℤ)
    (h : ∀ x : ℤ, x ∈ p1 ↔ x ∈ p2) :
    query_trees_by_plots conn p1 = query_trees_by_plots conn p2 := by
  have hf : filtered_trees conn p1 = filtered_trees conn p2 := by
    unfold filtered_trees
    refine List.filter_congr ?_
    intro ir _
    simp only [decide_eq_decide, List.mem_dedup]
    exact h ir.2.link
  unfold query_trees_by_plots query_trees_pre
  rw [hf]

/-- Witness for C9: `[1, 2]` and `[2, 1, 1]` carry the same set of distinct
plot ids, and the query results coincide. -/
theorem query_trees_by_plots_depends_only_on_plot_id_set_witness :
    query_trees_by_plots sampleTreeConn [1, 2] =
      query_trees_by_plots sampleTreeConn [2, 1, 1] :=
  query_trees_by_plots_depends_only_on_plot_id_set sampleTreeConn [1, 2] [2, 1, 1]
    (by intro x; simp only [List.mem_cons, List.mem_singleton,
          List.not_mem_nil, or_false]; tauto)

/-- A one-row connection whose row has `ACTUALHT` null and `HT = 15`. -/
def nullHtConn : TreeMapConnection :=
  { version := "2016", tl_key := "tm_id", raster_path := "treemap2016.tif"
    base := sampleConn, table_path := "trees.csv"
    tree_table := [{ link := 1, SPCD := 10, STATUSCD := 1, DIA := 10, HT := 15,
                     ACTUALHT := none, CR := 50, TPA_UNADJ := 100 }] }

/-- A one-row connection whose row has `ACTUALHT = 12` and `HT = 15`. -/
def actualHtConn : TreeMapConnection :=
  { version := "2016", tl_key := "tm_id", raster_path := "treemap2016.tif"
    base := sampleConn, table_path := "trees.csv"
    tree_table := [{ link := 1, SPCD := 10, STATUSCD := 1, DIA := 10, HT := 15,
                     ACTUALHT := some 12, CR := 50, TPA_UNADJ := 100 }] }

/-- C5: height resolution is a per-row coalesce: for every surviving row,
the pre-conversion output `HT` is `ACTUALHT` when that row's `ACTUALHT` is
non-missing and the nominal `HT` otherwise; in particular a row with
`ACTUALHT` null and `HT = 15` yields `15`, and a row with `ACTUALHT = 12`
and `HT = 15` yields `12`. -/
theorem query_trees_height_per_row_coalesce :
    (∀ (conn : TreeMapConnection) (plots : List ℤ) (j : ℕ)
        (hj : j < (filtered_trees conn plots).length),
      ∃ hj2 : j < (query_trees_pre conn plots).length,
        ((query_trees_pre conn plots).get ⟨j, hj2⟩).HT =
          (((filtered_trees conn plots).get ⟨j, hj⟩).2.ACTUALHT).getD
            ((filtered_trees conn plots).get ⟨j, hj⟩).2.HT) ∧
    (query_trees_pre nullHtConn [1]).map (fun r => r.HT) = [15] ∧
    (query_trees_pre actualHtConn [1]).map (fun r => r.HT) = [12] := by
  refine ⟨?_, ?_, ?_⟩
  · intro conn plots j hj
    refine ⟨by simpa [query_trees_pre] using hj, ?_⟩
    simp only [query_trees_pre, List.get_eq_getElem, List.getElem_map]
    cases hA : ((filtered_trees conn plots).get ⟨j, hj⟩).2.ACTUALHT with
    | none => simp [List.get_eq_getElem] at hA ⊢
    | some a => simp [List.get_eq_getElem] at hA ⊢
  · norm_num [query_trees_pre, filtered_trees, nullHtConn,
      List.enum, List.enumFrom, List.filter, List.dedup]
  · norm_num [query_trees_pre, filtered_trees, actualHtConn,
      List.enum, List.enumFrom, List.filter, List.dedup]

/-- Witness for C5's per-row coalesce at row 0 of `nullHtConn`. -/
theorem query_trees_height_per_row_coalesce_witness :
    ∃ hj2 : 0 < (query_trees_pre nullHtConn [1]).length,
      ((query_trees_pre nullHtConn [1]).get ⟨0, hj2⟩).HT =
        (((filtered_trees nullHtConn [1]).get
            ⟨0, by norm_num [filtered_trees, nullHtConn, List.enum,
                    List.enumFrom, List.filter, List.dedup]⟩).2.ACTUALHT).getD
          ((filtered_trees nullHtConn [1]).get
            ⟨0, by norm_num [filtered_trees, nullHtConn, List.enum,
                    List.enumFrom, List.filter, List.dedup]⟩).2.HT :=
  query_trees_height_per_row_coalesce.1 nullHtConn [1] 0
    (by norm_num [filtered_trees, nullHtConn, List.enum, List.enumFrom,
          List.filter, List.dedup])

/-- C6: the unit normalizer rescales independently per row — `CR / 100`,
`HT * 0.3048`, `DIA * 2.54`, trees-per-area `* 2.47105 / 10000` renamed to
`TPA` — so the input row `DIA = 10, HT = 20, CR = 50, TPA_UNADJ = 100`
normalizes exactly to `DIA = 25.4, HT = 6.096, CR = 0.5,
TPA = 0.0247105`. -/
theorem convert_units_per_row_roundtrip :
    (∀ (data : List TreeRow) (j : ℕ) (hj : j < data.length),
      ∃ hj2 : j < (convert_treemap_data_to_fastfuels data).length,
        (convert_treemap_data_to_fastfuels data).get ⟨j, hj2⟩ =
          { TREE_ID := (data.get ⟨j, hj⟩).TREE_ID
            PLOT_ID := (data.get ⟨j, hj⟩).PLOT_ID
            SPCD := (data.get ⟨j, hj⟩).SPCD
            STATUSCD := (data.get ⟨j, hj⟩).STATUSCD
            DIA := (data.get ⟨j, hj⟩).DIA * 2.54
            HT := (data.get ⟨j, hj⟩).HT * 0.3048
            CR := (data.get ⟨j, hj⟩).CR / 100
            TPA := (data.get ⟨j, hj⟩).TPA_UNADJ * 2.47105 / 10000 }) ∧
    convert_treemap_data_to_fastfuels
        [{ TREE_ID := 0, PLOT_ID := 1, SPCD := 10, STATUSCD := 1,
           DIA := 10, HT := 20, CR := 50, TPA_UNADJ := 100 }] =
      [{ TREE_ID := 0, PLOT_ID := 1, SPCD := 10, STATUSCD := 1,
         DIA := 25.4, HT := 6.096, CR := 0.5, TPA := 0.0247105 }] := by
  constructor
  · intro data j hj
    refine ⟨by simpa [convert_treemap_data_to_fastfuels] using hj, ?_⟩
    simp [convert_treemap_data_to_fastfuels, convertRow,
      List.get_eq_getElem, List.getElem_map]
  · norm_num [convert_treemap_data_to_fastfuels, convertRow]

/-- Witness for C6's per-row formulas at a singleton list. -/
theorem convert_units_per_row_roundtrip_witness :
    ∃ hj2 : 0 < (convert_treemap_data_to_fastfuels
        [({ TREE_ID := 0, PLOT_ID := 1, SPCD := 10, STATUSCD := 1,
            DIA := 10, HT := 20, CR := 50, TPA_UNADJ := 100 } : TreeRow)]).length,
      (convert_treemap_data_to_fastfuels
        [({ TREE_ID := 0, PLOT_ID := 1, SPCD := 10, STATUSCD := 1,
            DIA := 10, HT := 20, CR := 50, TPA_UNADJ := 100 } : TreeRow)]).get
          ⟨0, hj2⟩ =
        { TREE_ID := 0, PLOT_ID := 1, SPCD := 10, STATUSCD := 1,
          DIA := (10 : ℚ) * 2.54, HT := (20 : ℚ) * 0.3048,
          CR := (50 : ℚ) / 100, TPA := (100 : ℚ) * 2.47105 / 10000 } := by
  have h := convert_units_per_row_roundtrip.1
    [({ TREE_ID := 0, PLOT_ID := 1, SPCD := 10, STATUSCD := 1,
        DIA := 10, HT := 20, CR := 50, TPA_UNADJ := 100 } : TreeRow)]
    0 (by norm_num)
  simpa using h

/-- C1: each invalid-construction input raises its own specific error:
a `connection_type` outside the supported set raises
`ValueError(f"Connection type {ct} not supported.")` (the spec's
`UnsupportedBackendError`); a version outside `{"2014","2016"}` raises
`ValueError(f"Invalid version: {v}")` (`InvalidVersionError`); a tabular
path whose extension is neither `.csv` nor `.parquet` raises
`NotImplementedError` (`UnsupportedFormatError`); a nonexistent tabular
path with a supported extension raises `FileNotFoundError`
(`InvalidSourcePathError`); and the two `ValueError` message families can
never coincide, so the four error kinds are pairwise distinguishable. -/
theorem construction_error_kinds_specific :
    (∀ (rd : RasterData) (ct : String), ct ∉ allowed_connection_types →
      mkRasterConnection rd ct =
        .error (.valueError ("Connection type " ++ ct ++ " not supported."))) ∧
    (∀ (rd : RasterData) (tp ttp v : String) (fs : String → Option TreeTable),
      v ∉ (["2014", "2016"] : List String) →
      mkTreeMapConnection rd tp ttp v fs =
        .error (.valueError ("Invalid version: " ++ v))) ∧
    (∀ (rd : RasterData) (tp ttp v : String) (fs : String → Option TreeTable),
      v ∈ (["2014", "2016"] : List String) →
      pyEndsWith ttp ".csv" = false → pyEndsWith ttp ".parquet" = false →
      mkTreeMapConnection rd tp ttp v fs =
        .error (.notImplementedError
          ("Unsupported file format for tree table: " ++ ttp))) ∧
    (∀ (rd : RasterData) (tp ttp v : String) (fs : String → Option TreeTable),
      v ∈ (["2014", "2016"] : List String) →
      pyEndsWith ttp ".csv" = true → fs ttp = none →
      mkTreeMapConnection rd tp ttp v fs =
        .error (.fileNotFoundError ("Invalid tree table path: " ++ ttp))) ∧
    (∀ (rd : RasterData) (tp ttp v : String) (fs : String → Option TreeTable),
      v ∈ (["2014", "2016"] : List String) →
      pyEndsWith ttp ".csv" = false → pyEndsWith ttp ".parquet" = true →
      fs ttp = none →
      mkTreeMapConnection rd tp ttp v fs =
        .error (.fileNotFoundError ("Invalid tree table path: " ++ ttp))) ∧
    (∀ ct v : String,
      PyError.valueError ("Connection type " ++ ct ++ " not supported.") ≠
        PyError.valueError ("Invalid version: " ++ v)) := by
  have hok : ∀ rd : RasterData, mkRasterConnection rd "rioxarray" =
      .ok { connection_type := "rioxarray", raster := rd, raster_crs := rd.crs
            raster_resolution := |rd.resolution0|, raster_bounds := rd.bounds
            raster_dtype := rd.dtype } := by
    intro rd
    simp [mkRasterConnection, allowed_connection_types]
  refine ⟨?_, ?_, ?_, ?_, ?_, ?_⟩
  · intro rd ct h
    unfold mkRasterConnection
    rw [if_pos h]
  · intro rd tp ttp v fs h
    unfold mkTreeMapConnection
    rw [if_pos h]
  · intro rd tp ttp v fs hv hcsv hpq
    unfold mkTreeMapConnection
    rw [if_neg (not_not_intro hv), hok rd]
    simp [hcsv, hpq]
  · intro rd tp ttp v fs hv hcsv hfs
    unfold mkTreeMapConnection
    rw [if_neg (not_not_intro hv), hok rd]
    simp [hcsv, hfs]
  · intro rd tp ttp v fs hv hcsv hpq hfs
    unfold mkTreeMapConnection
    rw [if_neg (not_not_intro hv), hok rd]
    simp [hcsv, hpq, hfs]
  · intro ct v h
    have h2 := congrArg (fun e => match e with
      | PyError.valueError m => m.data
      | _ => []) h
    simp only [String.data_append] at h2
    simp at h2

/-- Witness for C1 at concrete invalid inputs. -/
theorem construction_error_kinds_specific_witness :
    mkRasterConnection sampleRasterData "zarr" =
      .error (.valueError ("Connection type " ++ "zarr" ++ " not supported.")) ∧
    mkTreeMapConnection sampleRasterData "t.tif" "trees.csv" "2015"
        (fun _ => some sampleTreeTable) =
      .error (.valueError ("Invalid version: " ++ "2015")) ∧
    mkTreeMapConnection sampleRasterData "t.tif" "trees.txt" "2016"
        (fun _ => some sampleTreeTable) =
      .error (.notImplementedError
        ("Unsupported file format for tree table: " ++ "trees.txt")) ∧
    mkTreeMapConnection sampleRasterData "t.tif" "missing.csv" "2016"
        (fun _ => none) =
      .error (.fileNotFoundError ("Invalid tree table path: " ++ "missing.csv")) ∧
    mkTreeMapConnection sampleRasterData "t.tif" "missing.parquet" "2016"
        (fun _ => none) =
      .error (.fileNotFoundError ("Invalid tree table path: " ++ "missing.parquet")) ∧
    PyError.valueError ("Connection type " ++ "zarr" ++ " not supported.") ≠
      PyError.valueError ("Invalid version: " ++ "2015") :=
  ⟨construction_error_kinds_specific.1 sampleRasterData "zarr" (by decide),
   construction_error_kinds_specific.2.1 sampleRasterData "t.tif" "trees.csv"
     "2015" (fun _ => some sampleTreeTable) (by decide),
   construction_error_kinds_specific.2.2.1 sampleRasterData "t.tif" "trees.txt"
     "2016" (fun _ => some sampleTreeTable) (by decide) (by decide) (by decide),
   construction_error_kinds_specific.2.2.2.1 sampleRasterData "t.tif"
     "missing.csv" "2016" (fun _ => none) (by decide) (by decide) rfl,
   construction_error_kinds_specific.2.2.2.2.1 sampleRasterData "t.tif"
     "missing.parquet" "2016" (fun _ => none) (by decide) (by decide)
     (by decide) rfl,
   construction_error_kinds_specific.2.2.2.2.2 "zarr" "2015"⟩

/-- Counterexample to C4 as stated: querying `sampleTreeConn` (rows 0 and 2
link to plot 1) with plot set `{1}` yields `TREE_ID`s `[0, 2]` — the
preserved original index labels of the surviving rows, with a gap — not the
sequential integers `[0, 1]` over the filtered result. -/
theorem query_trees_tree_id_not_sequential_cex :
    ((query_trees_by_plots sampleTreeConn [1]).map (fun r => r.TREE_ID)) = [0, 2] ∧
    ((query_trees_by_plots sampleTreeConn [1]).map (fun r => r.TREE_ID)) ≠
      List.range ((query_trees_by_plots sampleTreeConn [1]).length) := by
  have h1 : ((query_trees_by_plots sampleTreeConn [1]).map (fun r => r.TREE_ID)) =
      [0, 2] := by
    norm_num [query_trees_by_plots, query_trees_pre, filtered_trees,
      convert_treemap_data_to_fastfuels, convertRow, sampleTreeConn,
      sampleTreeTable, List.enum, List.enumFrom, List.filter, List.dedup]
  have h2 : (query_trees_by_plots sampleTreeConn [1]).length = 2 := by
    norm_num [query_trees_by_plots, query_trees_pre, filtered_trees,
      convert_treemap_data_to_fastfuels, sampleTreeConn,
      sampleTreeTable, List.enum, List.enumFrom, List.filter, List.dedup]
  refine ⟨h1, ?_⟩
  rw [h1, h2]
  decide

/-- C4 (amended): every result row's `PLOT_ID` is in the queried plot-id
set, its `TREE_ID` is the original position of its source row in the tree
table (the index label preserved through filtering, with the source row's
linkage value), and the `TREE_ID`s are strictly increasing — in particular
pairwise distinct — though not, in general, the sequential integers
`0, 1, 2, …` over the filtered result. -/
theorem query_trees_plot_membership_and_tree_id
    (conn : TreeMapConnection) (plots : List ℤ) :
    (∀ r ∈ query_trees_by_plots conn plots,
      r.PLOT_ID ∈ plots ∧
      ∃ h : r.TREE_ID < conn.tree_table.length,
        (conn.tree_table.get ⟨r.TREE_ID, h⟩).link = r.PLOT_ID) ∧
    ((query_trees_by_plots conn plots).map (fun r => r.TREE_ID)).Pairwise (· < ·) ∧
    ((query_trees_by_plots conn plots).map (fun r => r.TREE_ID)).Nodup := by
  have hpw : ((query_trees_by_plots conn plots).map (fun r => r.TREE_ID)).Pairwise
      (· < ·) := by
    have hmap : ((query_trees_by_plots conn plots).map (fun r => r.TREE_ID)) =
        (filtered_trees conn plots).map Prod.fst := by
      simp only [query_trees_by_plots, query_trees_pre,
        convert_treemap_data_to_fastfuels, List.map_map]
      rfl
    rw [hmap]
    have hsub : List.Sublist ((filtered_trees conn plots).map Prod.fst)
        (conn.tree_table.enum.map Prod.fst) :=
      (List.filter_sublist _).map Prod.fst
    rw [List.enum_map_fst] at hsub
    exact (List.pairwise_lt_range _).sublist hsub
  refine ⟨?_, hpw, hpw.imp fun hlt => Nat.ne_of_lt hlt⟩
  intro r hr
  simp only [query_trees_by_plots, query_trees_pre,
    convert_treemap_data_to_fastfuels, List.map_map, List.mem_map] at hr
  obtain ⟨ir, hin, hreq⟩ := hr
  obtain ⟨i, raw⟩ := ir
  subst hreq
  simp only [filtered_trees] at hin
  rw [List.mem_filter] at hin
  obtain ⟨henum, hlink⟩ := hin
  have hlink2 : raw.link ∈ plots := by
    have h3 := of_decide_eq_true hlink
    rwa [List.mem_dedup] at h3
  have henum2 := List.mk_mem_enum_iff_getElem?.mp henum
  rw [List.getElem?_eq_some_iff] at henum2
  obtain ⟨hlt, hget⟩ := henum2
  refine ⟨hlink2, ⟨hlt, ?_⟩⟩
  show (conn.tree_table.get ⟨i, hlt⟩).link = raw.link
  simp only [List.get_eq_getElem]
  rw [hget]

/-- Witness for the amended C4 at the first result row of a concrete
query. -/
theorem query_trees_plot_membership_and_tree_id_witness :
    (convertRow { TREE_ID := 0, PLOT_ID := 1, SPCD := 10, STATUSCD := 1,
                  DIA := 10, HT := 20, CR := 50, TPA_UNADJ := 100 }).PLOT_ID ∈
      ([1] : List ℤ) ∧
    ∃ h : (convertRow { TREE_ID := 0, PLOT_ID := 1, SPCD := 10, STATUSCD := 1,
                        DIA := 10, HT := 20, CR := 50,
                        TPA_UNADJ := 100 }).TREE_ID <
        sampleTreeConn.tree_table.length,
      (sampleTreeConn.tree_table.get
          ⟨(convertRow { TREE_ID := 0, PLOT_ID := 1, SPCD := 10, STATUSCD := 1,
                         DIA := 10, HT := 20, CR := 50,
                         TPA_UNADJ := 100 }).TREE_ID, h⟩).link =
        (convertRow { TREE_ID := 0, PLOT_ID := 1, SPCD := 10, STATUSCD := 1,
                      DIA := 10, HT := 20, CR := 50,
                      TPA_UNADJ := 100 }).PLOT_ID :=
  (query_trees_plot_membership_and_tree_id sampleTreeConn [1]).1
    (convertRow { TREE_ID := 0, PLOT_ID := 1, SPCD := 10, STATUSCD := 1,
                  DIA := 10, HT := 20, CR := 50, TPA_UNADJ := 100 })
    (by norm_num [query_trees_by_plots, query_trees_pre, filtered_trees,
          convert_treemap_data_to_fastfuels, sampleTreeConn, sampleTreeTable,
          List.enum, List.enumFrom, List.filter, List.dedup])
